import Mathlib

/-!
Verification of the santa-tracker-web build pipeline (gulpfile.js) and the
app.Lights scene module, as a shallow embedding in Lean 4.

Conventions of the embedding:
  - JavaScript strings are Lean String values; the gulp-replace plugin applied
    to a string pattern replaces every occurrence left to right, which is
    modelled by replaceAll below (structural recursion on a fuel argument so
    that the kernel can evaluate it).
  - A JavaScript object lookup table is a function String to Option of the
    record type; a missing property of kind array is the empty list and a
    missing boolean property is modelled with Option Bool where the source
    distinguishes strict equality with false.
  - JavaScript arrays manipulated by index are Lean lists with List.set and
    List.get?.
-/

namespace SantaBuild

/-- One entry of the scenes configuration table (./scenes.js).  The fields are
the properties read by gulpfile.js; a property that may be absent is an
Option (the source tests typeSafe with strict equality against false, and
isFrame and closureLibrary only for truthiness). -/
structure SceneConfig where
  entryPoint : Option String
  typeSafe : Option Bool
  isFrame : Bool
  closureLibrary : Bool
  libraries : List String
  dependencies : List String
deriving DecidableEq, Repr

/-- Replace every occurrence of pat by rep, scanning left to right without
rescanning the replacement, exactly the split and join semantics used by
gulp-replace for string patterns.  Fuel-indexed structural recursion; the
caller passes the length of the subject as fuel, which always suffices
because each step consumes at least one character of the subject. -/
def replaceAllAux (pat rep : List Char) : Nat → List Char → List Char
  | 0, s => s
  | _ + 1, [] => []
  | n + 1, c :: rest =>
      if pat ≠ [] ∧ pat.isPrefixOf (c :: rest) then
        rep ++ replaceAllAux pat rep n ((c :: rest).drop pat.length)
      else
        c :: replaceAllAux pat rep n rest

/-- gulp-replace with a string pattern: replace all occurrences. -/
def replaceAll (s pat rep : String) : String :=
  String.mk (replaceAllAux pat.toList rep.toList s.toList.length s.toList)

/-- argv.baseurl.replace with regex slash-run-at-end and replacement "/":
the run of trailing slashes (possibly empty) is replaced by exactly one
slash. -/
def staticBaseUrl (baseurl : String) : String :=
  String.mk ((baseurl.toList.reverse.dropWhile (fun c => c = '/')).reverse) ++ "/"

/-- STATIC_URL from gulpfile.js line 114: empty when pretty, otherwise the
normalized base url, the build tag and a trailing slash. -/
def staticUrl (pretty : Bool) (baseurl build : String) : String :=
  if pretty then "" else staticBaseUrl baseurl ++ build ++ "/"

/-- The replacement text the build-prod task inserts for the base-href
placeholder (gulpfile.js line 368). -/
def baseHrefReplacement (pretty : Bool) (baseurl build : String) : String :=
  "<base href=\"" ++ staticUrl pretty baseurl build ++ "\">"

/-- The two literal token replacements the build-prod task performs on each
top-level entry HTML file (gulpfile.js lines 368 and 369).  The surrounding
window.DEV strip and the i18n substitution act on disjoint tokens and are not
modelled. -/
def buildProdHtmlStep (pretty : Bool) (baseurl build : String) (html : String) : String :=
  replaceAll
    (replaceAll html "<base href=\"\">" (baseHrefReplacement pretty baseurl build))
    "data-version=\"\"" ("data-version=\"" ++ build ++ "\"")

/-- The four literal strings matched by the regex of gulpfile.js line 378,
which allows an optional space on either side of the equals sign. -/
def versionPatterns : List (List Char) :=
  ["const version = \x27\x27;".toList,
   "const version =\x27\x27;".toList,
   "const version= \x27\x27;".toList,
   "const version=\x27\x27;".toList]

/-- Try the version-constant regex at the head of s; on a match return the
remainder after the matched text.  At any position at most one of the four
variants can match, so trying them in order is exact. -/
def matchVersionPat (s : List Char) : Option (List Char) :=
  match versionPatterns.find? (fun p => p.isPrefixOf s) with
  | some p => some (s.drop p.length)
  | none => none

/-- JavaScript String.replace with a regex without the g flag replaces only
the first match; scan left to right and stop after one replacement. -/
def replaceVersionAux (rep : List Char) : List Char → List Char
  | [] => []
  | c :: rest =>
      match matchVersionPat (c :: rest) with
      | some rem => rep ++ rem
      | none => c :: replaceVersionAux rep rest

/-- The version-constant rewrite of sw.js (gulpfile.js line 378). -/
def swVersionStep (build : String) (sw : String) : String :=
  String.mk (replaceVersionAux ("const version = \x27" ++ build ++ "\x27;").toList sw.toList)

/-- The two replacements the build-prod task performs on sw.js (gulpfile.js
lines 377 and 378): the static-path token, then the version constant. -/
def buildProdSwStep (pretty : Bool) (baseurl build : String) (sw : String) : String :=
  swVersionStep build (replaceAll sw "./STATIC_PATH/" (staticUrl pretty baseurl build))

/-- Errors a run of the pipeline can surface.  typeError models a JavaScript
TypeError raised by dereferencing a property of undefined; configError is the
error kind the specification names for malformed configuration (the gulpfile
never constructs one). -/
inductive JsRunError where
  | typeError (msg : String)
  | configError (msg : String)
deriving DecidableEq, Repr

/-- SCENE_NAMES (gulpfile.js lines 131 to 133): with a single-scene filter,
the named scene followed by the dependencies of its configuration entry when
one exists (the source guards the lookup with a fallback empty object, so a
missing entry contributes no dependencies); without a filter, all configured
names. -/
def sceneNames (sceneArg : Option String) (cfg : String → Option SceneConfig)
    (allNames : List String) : List String :=
  match sceneArg with
  | some s =>
      s :: (match cfg s with
            | some c => c.dependencies
            | none => [])
  | none => allNames

/-- The whole startup computation of the gulpfile that depends on the scene
filter (lines 128 to 133).  It performs no validation of any kind: every
lookup is guarded by a fallback, so it always succeeds. -/
def scenesStartup (sceneArg : Option String) (cfg : String → Option SceneConfig)
    (allNames : List String) : Except JsRunError (List String) :=
  Except.ok (sceneNames sceneArg cfg allNames)

/-- CLOSURE_WARNINGS (gulpfile.js lines 101 to 106). -/
def CLOSURE_WARNINGS : List String := ["accessControls", "const", "visibility"]

/-- CLOSURE_SAFE_WARNINGS (gulpfile.js lines 107 to 110). -/
def CLOSURE_SAFE_WARNINGS : List String := CLOSURE_WARNINGS ++ ["checkTypes", "checkVars"]

/-- The per-scene compiler invocation assembled by the compile-scenes task
(gulpfile.js lines 194 to 252), restricted to the scalar flags; the source
glob lists and the limiter are not modelled. -/
structure SceneCompileJob where
  fileName : String
  dest : String
  warnings : List String
  warningLevel : String
  entryPoint : Option String
  compilationLevel : String
  languageIn : String
  languageOut : String
  outputWrapper : String
deriving DecidableEq, Repr

/-- Where the compiled artifact of a job is written: gulp.dest(dest) with the
configured fileName. -/
def sceneOutputPath (job : SceneCompileJob) : String :=
  job.dest ++ "/" ++ job.fileName

/-- The body of the compile-scenes reduce step for one scene name (gulpfile.js
lines 195 to 247).  The very first property read, config.typeSafe, raises a
TypeError when the configuration table has no entry for the scene; nothing in
the task validates the entry point, which is passed through as is. -/
def compileSceneInit (cfg : String → Option SceneConfig) (sceneName : String) :
    Except JsRunError SceneCompileJob :=
  match cfg sceneName with
  | none => Except.error (JsRunError.typeError "Cannot read properties of undefined")
  | some config =>
      let warnings := if config.typeSafe == some false then CLOSURE_WARNINGS
                      else CLOSURE_SAFE_WARNINGS
      let warningLevel := if config.typeSafe == some false then "DEFAULT" else "VERBOSE"
      Except.ok
        { fileName := sceneName ++ "-scene.min.js"
          dest := "scenes/" ++ sceneName
          warnings := warnings
          warningLevel := warningLevel
          entryPoint := config.entryPoint
          compilationLevel := "SIMPLE_OPTIMIZATIONS"
          languageIn := "ECMASCRIPT6_STRICT"
          languageOut := "ECMASCRIPT5_STRICT"
          outputWrapper :=
            if config.isFrame then "%output%"
            else
              "var scenes = scenes || \x7b\x7d;\n" ++
              "scenes." ++ sceneName ++ " = scenes." ++ sceneName ++ " || \x7b\x7d;\n" ++
              "(function()\x7bvar global=window;%output%\x7d).call(\x7bapp: scenes." ++
                sceneName ++ "\x7d);" }

/-- Modelled from the spec: the outcome of one external closure-compiler
invocation, which is not part of this repository.  A run either succeeds,
succeeds with warnings, or fails with an error. -/
inductive CompilerOutcome where
  | success
  | warning
  | err
deriving DecidableEq, Repr

/-- Modelled from the spec: whether the external compiler stream emits an
artifact, given the continueWithWarnings option of the plugin invocation.
The spec states that a warning is tolerated and surfaced while an error
produces no artifact for that scene. -/
def compilerEmits (continueWithWarnings : Bool) (o : CompilerOutcome) : Bool :=
  match o with
  | CompilerOutcome.success => true
  | CompilerOutcome.warning => continueWithWarnings
  | CompilerOutcome.err => false

/-- The compile-scenes task merges one independent stream per scene name
(gulpfile.js lines 194 and 249 to 253); each scene uses its own compiler
stream constructed with continueWithWarnings set to true (line 244).  The
result records, per scene, whether its artifact is emitted. -/
def compileScenesOutcomes (names : List String) (outcome : String → CompilerOutcome) :
    List (String × Bool) :=
  names.map (fun n => (n, compilerEmits true (outcome n)))

/-- A candidate output file for the incremental Style Compiler decision:
its contents and its modification time. -/
structure OutFile where
  contents : List Nat
  mtime : Nat
deriving DecidableEq, Repr

/-- Modelled from the spec: the compareSha1Digest comparator of the external
gulp-changed plugin, selected by the sass task; a file is passed through,
hence rewritten, exactly when the digest of the newly compiled contents
differs from the digest of the existing output file. -/
def compareSha1Digest (digest : List Nat → Nat) (source target : OutFile) : Bool :=
  digest source.contents != digest target.contents

/-- Modelled from the spec: the default modification-time comparator of
gulp-changed, which the sass task does not use. -/
def compareLastModifiedTime (source target : OutFile) : Bool :=
  target.mtime < source.mtime

/-- The staleness decision of the sass task (gulpfile.js line 153): the
changed stage is instantiated with the sha1-digest comparator. -/
def sassHasChanged (digest : List Nat → Nat) (source target : OutFile) : Bool :=
  compareSha1Digest digest source target

/-- The options object passed to the vulcanize plugin for one scene
(gulpfile.js lines 328 to 334). -/
structure VulcanizeOpts where
  stripExcludes : List String
  inlineScripts : Bool
  inlineCss : Bool
  stripComments : Bool
  dest : String
deriving DecidableEq, Repr

/-- The per-scene vulcanize invocation of the vulcanize-scenes task
(gulpfile.js lines 326 to 334): the configuration lookup falls back to an
empty object, whose isFrame property is falsy, and stripExcludes is the full
parsed shared-elements import list unless the scene is framed. -/
def sceneVulcanizeOpts (closureConfig : Option SceneConfig)
    (elementsImports : List String) (dest : String) : VulcanizeOpts :=
  { stripExcludes :=
      match closureConfig with
      | some c => if c.isFrame then [] else elementsImports
      | none => elementsImports
    inlineScripts := true
    inlineCss := true
    stripComments := true
    dest := dest }

/-- The dependency lists declared on the gulp tasks (gulp.task calls of
gulpfile.js); gulp version 3 runs every dependency to completion before the
dependent task body starts.  The default task list depends on the devmode
flag (line 462). -/
def taskDeps (devmode : Bool) (t : String) : List String :=
  if t = "vulcanize-scenes" then ["sass", "compile-scenes"]
  else if t = "vulcanize-elements" then ["sass", "compile-santa-api-service"]
  else if t = "vulcanize" then ["vulcanize-scenes", "vulcanize-elements"]
  else if t = "copy-assets" then ["vulcanize", "build-prod", "build-prod-manifest"]
  else if t = "build-contents" then ["copy-assets"]
  else if t = "serve" then ["default", "watch"]
  else if t = "default" then
    (if devmode then ["sass", "build-scene-deps", "create-dev-scenes"]
     else ["sass", "compile-santa-api-service", "compile-scenes"])
  else []

/-- An execution of the task graph: start and finish instants per task, with
the gulp guarantees that a task finishes no earlier than it starts and that
every declared dependency finishes strictly before the dependent task
starts. -/
structure Execution (devmode : Bool) where
  start : String → Nat
  finish : String → Nat
  start_le_finish : ∀ t, start t ≤ finish t
  dep_done : ∀ t d, d ∈ taskDeps devmode t → finish d < start t

/-- Transitive reachability in the task dependency graph. -/
inductive DependsOn (devmode : Bool) : String → String → Prop where
  | direct {t d : String} : d ∈ taskDeps devmode t → DependsOn devmode t d
  | trans {t d e : String} : d ∈ taskDeps devmode t → DependsOn devmode d e →
      DependsOn devmode t e

end SantaBuild

namespace app

/-- The argument of app.Lights.setLevel: the only property the method reads
is stage. -/
structure Level where
  stage : String
deriving DecidableEq, Repr

/-- The state of an app.Lights instance.  Each DOM light element is
represented by the one style property the class writes, its
background-image value; the parent element passed to the constructor only
receives the four children and carries no further state. -/
structure Lights where
  tiles : List Nat
  lights : List String
  active : Bool
deriving DecidableEq, Repr

/-- One in-place swap of the shuffle loop body (part_000 lines 55 to 57):
read both cells, then write them back exchanged.  When either index is out
of range the guard never fires in the source loop, so the identity branch is
unreachable there. -/
def jsSwap {α : Type} (l : List α) (i j : Nat) : List α :=
  match l.get? i, l.get? j with
  | some x, some y => (l.set i y).set j x
  | _, _ => l

/-- The loop of app.Lights.shuffle_ running the swap for index values
n, n - 1, ..., 1; the loop stops when the index reaches 0.  The oracle
choice gives the value of Math.random scaled per iteration: at loop index i
the source computes Math.floor of a number below i + 1, so the drawn index
is some natural reduced modulo i + 1. -/
def shuffleLoop {α : Type} (choice : Nat → Nat) : Nat → List α → List α
  | 0, array => array
  | i + 1, array => shuffleLoop choice i (jsSwap array (i + 1) (choice (i + 1) % (i + 2)))

/-- app.Lights.shuffle_ (part_000 lines 52 to 60): Fisher-Yates over the
whole array, mutating in place and returning the array. -/
def Lights.shuffle_ {α : Type} (choice : Nat → Nat) (array : List α) : List α :=
  shuffleLoop choice (array.length - 1) array

/-- The background-image value written for tile number n (part_000
line 48). -/
def discoUrl (n : Nat) : String :=
  "url(img/stages/disco_" ++ toString n ++ ".svg)"

/-- The app.Lights constructor (part_000 lines 22 to 36): tiles 1 to 9,
four light elements with no background image yet, inactive. -/
def Lights.init : Lights :=
  { tiles := (List.range 9).map (fun v => v + 1)
    lights := List.replicate 4 ""
    active := false }

/-- app.Lights.setLevel (part_000 lines 38 to 40). -/
def Lights.setLevel (level : Level) (s : Lights) : Lights :=
  { s with active := level.stage == "stage2" }

/-- app.Lights.onBeat (part_000 lines 42 to 50): a no-op while inactive;
otherwise shuffle the tiles in place and point each of the four lights at
the tile of its own index. -/
def Lights.onBeat (beat bpm : Nat) (choice : Nat → Nat) (s : Lights) : Lights :=
  if !s.active then s
  else
    let tiles := Lights.shuffle_ choice s.tiles
    { s with
        tiles := tiles
        lights := (List.range s.lights.length).map (fun index => discoUrl (tiles.getD index 0)) }

/-- One observable call on an app.Lights instance. -/
inductive LightsOp where
  | setLevel (level : Level)
  | onBeat (beat bpm : Nat) (choice : Nat → Nat)

/-- Apply one call to the instance state. -/
def applyOp (s : Lights) : LightsOp → Lights
  | LightsOp.setLevel level => Lights.setLevel level s
  | LightsOp.onBeat beat bpm choice => Lights.onBeat beat bpm choice s

/-- Run a sequence of calls from a given state. -/
def runOps (s : Lights) : List LightsOp → Lights
  | [] => s
  | op :: rest => runOps (applyOp s op) rest

end app

namespace SantaBuild

/-- Chaining the execution guarantees along the dependency graph: whatever a
task transitively depends on finishes strictly before the task starts. -/
theorem Execution.finish_lt_start {devmode : Bool} (e : Execution devmode)
    {t d : String} (h : DependsOn devmode t d) : e.finish d < e.start t := by
  induction h with
  | direct hmem => exact e.dep_done _ _ hmem
  | trans hmem _ ih =>
      exact lt_of_lt_of_le (lt_of_lt_of_le ih (e.start_le_finish _)) (le_of_lt (e.dep_done _ _ hmem))

/-- Every stage the dist manifest claim names is a transitive dependency of
build-contents, for either devmode value. -/
theorem build_contents_depends (devmode : Bool) :
    ∀ t ∈ ["compile-scenes", "sass", "vulcanize-scenes", "vulcanize-elements",
           "build-prod", "copy-assets"],
      DependsOn devmode "build-contents" t := by
  have hca : "copy-assets" ∈ taskDeps devmode "build-contents" := by
    cases devmode <;> decide
  have hv : "vulcanize" ∈ taskDeps devmode "copy-assets" := by
    cases devmode <;> decide
  have hbp : "build-prod" ∈ taskDeps devmode "copy-assets" := by
    cases devmode <;> decide
  have hvs : "vulcanize-scenes" ∈ taskDeps devmode "vulcanize" := by
    cases devmode <;> decide
  have hve : "vulcanize-elements" ∈ taskDeps devmode "vulcanize" := by
    cases devmode <;> decide
  have hcs : "compile-scenes" ∈ taskDeps devmode "vulcanize-scenes" := by
    cases devmode <;> decide
  have hsass : "sass" ∈ taskDeps devmode "vulcanize-scenes" := by
    cases devmode <;> decide
  intro t ht
  simp only [List.mem_cons, List.not_mem_nil, or_false] at ht
  rcases ht with rfl | rfl | rfl | rfl | rfl | rfl
  · exact DependsOn.trans hca (DependsOn.trans hv (DependsOn.trans hvs (DependsOn.direct hcs)))
  · exact DependsOn.trans hca (DependsOn.trans hv (DependsOn.trans hvs (DependsOn.direct hsass)))
  · exact DependsOn.trans hca (DependsOn.trans hv (DependsOn.direct hvs))
  · exact DependsOn.trans hca (DependsOn.trans hv (DependsOn.direct hve))
  · exact DependsOn.trans hca (DependsOn.direct hbp)
  · exact DependsOn.direct hca

/-- A topological schedule of the task graph without devmode, used to build a
sample execution. -/
def topoTasks : List String :=
  ["rm-dist", "sass", "compile-santa-api-service", "compile-scenes",
   "build-scene-deps", "create-dev-scenes", "watch", "default",
   "vulcanize-scenes", "vulcanize-elements", "vulcanize", "build-prod",
   "build-prod-manifest", "copy-assets", "build-contents", "serve"]

/-- Sample start instant: twice the topological index. -/
def sampleStart (t : String) : Nat := 2 * topoTasks.indexOf t

/-- Sample finish instant: one tick after the start. -/
def sampleFinish (t : String) : Nat := 2 * topoTasks.indexOf t + 1

theorem taskDeps_eq_nil_of_not_mem {t : String} (h : t ∉ topoTasks) (devmode : Bool) :
    taskDeps devmode t = [] := by
  simp only [topoTasks, List.mem_cons, List.not_mem_nil, or_false, not_or] at h
  obtain ⟨h1, h2, h3, h4, h5, h6, h7, h8, h9, h10, h11, h12, h13, h14, h15, h16⟩ := h
  simp [taskDeps, h9, h10, h11, h14, h15, h16, h8]

/-- A concrete execution satisfying the gulp ordering guarantees. -/
def sampleExecution : Execution false :=
  { start := sampleStart
    finish := sampleFinish
    start_le_finish := fun _ => Nat.le_succ _
    dep_done := by
      have key : ∀ t ∈ topoTasks, ∀ d ∈ taskDeps false t, sampleFinish d < sampleStart t := by
        decide
      intro t d hd
      by_cases ht : t ∈ topoTasks
      · exact key t ht d hd
      · rw [taskDeps_eq_nil_of_not_mem ht false] at hd
        simp at hd }

end SantaBuild

namespace app

/-- Moving the element stored at position m of xs to the front while storing
x there is a permutation of putting x at the front directly. -/
theorem cons_set_perm {α : Type} (xs : List α) (m : Nat) (x y : α)
    (h : xs.get? m = some y) : List.Perm (y :: xs.set m x) (x :: xs) := by
  induction xs generalizing m with
  | nil => simp at h
  | cons z zs ih =>
      cases m with
      | zero =>
          simp only [List.get?_cons_zero, Option.some.injEq] at h
          subst h
          simpa using List.Perm.swap x z zs
      | succ k =>
          simp only [List.get?_cons_succ] at h
          have step : List.Perm (y :: z :: zs.set k x) (z :: y :: zs.set k x) :=
            List.Perm.swap z y (zs.set k x)
          have mid : List.Perm (z :: y :: zs.set k x) (z :: x :: zs) :=
            List.Perm.cons z (ih k h)
          have fin : List.Perm (z :: x :: zs) (x :: z :: zs) := List.Perm.swap x z zs
          simpa using (step.trans mid).trans fin

/-- Writing each of two in-range cells with the value of the other is a
permutation. -/
theorem set_set_perm {α : Type} :
    ∀ (l : List α) (i j : Nat) (x y : α), l.get? i = some x → l.get? j = some y →
      List.Perm ((l.set i y).set j x) l := by
  intro l
  induction l with
  | nil => intro i j x y hi _; simp at hi
  | cons a as ih =>
      intro i j x y hi hj
      cases i with
      | zero =>
          simp only [List.get?_cons_zero, Option.some.injEq] at hi
          subst hi
          cases j with
          | zero =>
              simp only [List.get?_cons_zero, Option.some.injEq] at hj
              subst hj
              simp
          | succ m =>
              simp only [List.get?_cons_succ] at hj
              simpa using cons_set_perm as m a y hj
      | succ n =>
          simp only [List.get?_cons_succ] at hi
          cases j with
          | zero =>
              simp only [List.get?_cons_zero, Option.some.injEq] at hj
              subst hj
              simpa using cons_set_perm as n a x hi
          | succ m =>
              simp only [List.get?_cons_succ] at hj
              simpa using List.Perm.cons a (ih n m x y hi hj)

/-- The JavaScript swap is always a permutation of its input. -/
theorem jsSwap_perm {α : Type} (l : List α) (i j : Nat) : List.Perm (jsSwap l i j) l := by
  unfold jsSwap
  cases hi : l.get? i with
  | none =>
      cases hj : l.get? j <;> exact List.Perm.refl l
  | some x =>
      cases hj : l.get? j with
      | none => exact List.Perm.refl l
      | some y => exact set_set_perm l i j x y hi hj

/-- Every pass of the shuffle loop is a permutation of its input. -/
theorem shuffleLoop_perm {α : Type} (choice : Nat → Nat) :
    ∀ (n : Nat) (array : List α), List.Perm (shuffleLoop choice n array) array := by
  intro n
  induction n with
  | zero => intro array; exact List.Perm.refl array
  | succ i ih =>
      intro array
      exact (ih _).trans (jsSwap_perm array (i + 1) (choice (i + 1) % (i + 2)))

/-- shuffle_ permutes its input. -/
theorem shuffle_perm {α : Type} (choice : Nat → Nat) (array : List α) :
    List.Perm (Lights.shuffle_ choice array) array :=
  shuffleLoop_perm choice (array.length - 1) array

/-- Reading the first k cells of a list by index is taking its prefix. -/
theorem range_map_getD :
    ∀ (k : Nat) (l : List Nat), k ≤ l.length →
      (List.range k).map (fun i => l.getD i 0) = l.take k := by
  intro k
  induction k with
  | zero => intro l _; simp
  | succ n ih =>
      intro l h
      cases l with
      | nil => simp at h
      | cons a as =>
          rw [List.range_succ_eq_map, List.map_cons, List.map_map]
          have h2 : n ≤ as.length := Nat.le_of_succ_le_succ h
          have : (List.range n).map ((fun i => (a :: as).getD i 0) ∘ Nat.succ)
              = (List.range n).map (fun i => as.getD i 0) := by
            apply List.map_congr_left
            intro i _
            rfl
          rw [this, ih as h2]
          rfl

/-- The state invariant preserved by every call: the tiles stay a permutation
of the constructor tiles and there are always exactly four lights. -/
def LightsInv (s : Lights) : Prop :=
  List.Perm s.tiles ((List.range 9).map (fun v => v + 1)) ∧ s.lights.length = 4

theorem lightsInv_init : LightsInv Lights.init :=
  ⟨List.Perm.refl _, rfl⟩

theorem lightsInv_applyOp {s : Lights} (h : LightsInv s) (op : LightsOp) :
    LightsInv (applyOp s op) := by
  obtain ⟨hperm, hlen⟩ := h
  cases op with
  | setLevel level => exact ⟨hperm, hlen⟩
  | onBeat beat bpm choice =>
      cases hb : s.active with
      | false =>
          have happ : applyOp s (LightsOp.onBeat beat bpm choice) = s := by
            simp [applyOp, Lights.onBeat, hb]
          rw [happ]
          exact ⟨hperm, hlen⟩
      | true =>
          have happ : applyOp s (LightsOp.onBeat beat bpm choice) =
              { s with
                  tiles := Lights.shuffle_ choice s.tiles
                  lights := (List.range s.lights.length).map
                    (fun index => discoUrl ((Lights.shuffle_ choice s.tiles).getD index 0)) } := by
            simp [applyOp, Lights.onBeat, hb]
          rw [happ]
          exact ⟨(shuffle_perm choice s.tiles).trans hperm, by simp [hlen]⟩

theorem lightsInv_runOps : ∀ (ops : List LightsOp) (s : Lights), LightsInv s →
    LightsInv (runOps s ops) := by
  intro ops
  induction ops with
  | nil => intro s h; exact h
  | cons op rest ih =>
      intro s h
      exact ih _ (lightsInv_applyOp h op)

end app

open SantaBuild

/-- A framed demo scene configuration used to instantiate theorems. -/
def frameSceneConfig : SceneConfig :=
  { entryPoint := some "app.Frame"
    typeSafe := none
    isFrame := true
    closureLibrary := false
    libraries := []
    dependencies := [] }

/-- A non-framed demo scene configuration used to instantiate theorems. -/
def plainSceneConfig : SceneConfig :=
  { entryPoint := some "app.Game"
    typeSafe := none
    isFrame := false
    closureLibrary := false
    libraries := []
    dependencies := [] }

/-- A non-framed demo scene configuration whose typeSafe property is the
literal false, used to instantiate theorems. -/
def lenientSceneConfig : SceneConfig :=
  { entryPoint := some "app.Game"
    typeSafe := some false
    isFrame := false
    closureLibrary := false
    libraries := []
    dependencies := [] }

/-- Claim C1: for a build with version tag v202312251200, base URL /santa/
and the pretty flag false, the build-prod task replaces the base-href
placeholder in every top-level entry HTML file with exactly the tag
base href equal to /santa/v202312251200/, and replaces the service-worker
version constant in sw.js with exactly the constant assignment carrying
v202312251200. -/
theorem claim_C1 :
    staticUrl false "/santa/" "v202312251200" = "/santa/v202312251200/" ∧
    baseHrefReplacement false "/santa/" "v202312251200"
      = "<base href=\"/santa/v202312251200/\">" ∧
    (∀ html, buildProdHtmlStep false "/santa/" "v202312251200" html =
      replaceAll (replaceAll html "<base href=\"\">" "<base href=\"/santa/v202312251200/\">")
        "data-version=\"\"" "data-version=\"v202312251200\"") ∧
    swVersionStep "v202312251200" "const version = \x27\x27;"
      = "const version = \x27v202312251200\x27;" ∧
    buildProdSwStep false "/santa/" "v202312251200"
        "self.skipWaiting=1;\nconst version = \x27\x27;\n"
      = "self.skipWaiting=1;\nconst version = \x27v202312251200\x27;\n" := by
  refine ⟨by decide, by decide, ?_, by decide, by decide⟩
  intro html
  rfl

/-- Claim C2: the vulcanize-scenes task strips no shared-elements import
from a framed scene, and strips every import parsed from the shared
elements document from a non-framed scene (including a scene with no
configuration entry). -/
theorem claim_C2 (closureConfig : Option SceneConfig) (elementsImports : List String)
    (dest : String) :
    (∀ c, closureConfig = some c → c.isFrame = true →
      (sceneVulcanizeOpts closureConfig elementsImports dest).stripExcludes = []) ∧
    ((∀ c, closureConfig = some c → c.isFrame = false) →
      (sceneVulcanizeOpts closureConfig elementsImports dest).stripExcludes
        = elementsImports) := by
  constructor
  · intro c hc hf
    subst hc
    simp [sceneVulcanizeOpts, hf]
  · intro hall
    cases closureConfig with
    | none => rfl
    | some c =>
        have hf : c.isFrame = false := hall c rfl
        simp [sceneVulcanizeOpts, hf]

/-- Witness for claim C2 at one framed and one non-framed fixture scene. -/
theorem claim_C2_witness :
    (sceneVulcanizeOpts (some frameSceneConfig) ["elements/i18n.html"]
        "scenes/demo").stripExcludes = [] ∧
    (sceneVulcanizeOpts (some plainSceneConfig) ["elements/i18n.html"]
        "scenes/demo").stripExcludes = ["elements/i18n.html"] :=
  ⟨(claim_C2 (some frameSceneConfig) ["elements/i18n.html"] "scenes/demo").1
      frameSceneConfig rfl rfl,
   (claim_C2 (some plainSceneConfig) ["elements/i18n.html"] "scenes/demo").2
      (fun c hc => by injection hc with h; subst h; rfl)⟩

/-- Counterexample to claim C3: invoked with a single-scene filter naming a
scene absent from the configuration table, the startup computation succeeds
(no ConfigError, no abort before the stages), and the failure only surfaces
later inside the compile-scenes stage as a TypeError from dereferencing the
missing configuration entry. -/
theorem claim_C3_counterexample :
    scenesStartup (some "nosuchscene") (fun _ => none) [] = Except.ok ["nosuchscene"] ∧
    compileSceneInit (fun _ => none) "nosuchscene" =
      Except.error (JsRunError.typeError "Cannot read properties of undefined") :=
  ⟨rfl, rfl⟩

/-- Claim C3 (amended): the startup computation performs no validation and
never aborts, whatever the scene filter; an unknown scene name fails only
when the compile-scenes stage dereferences the missing configuration entry,
raising a TypeError rather than a ConfigError; and a configuration entry
lacking an entry point aborts nothing, the compile job being assembled with
the absent entry point passed through. -/
theorem claim_C3_amended (sceneArg : Option String) (cfg : String → Option SceneConfig)
    (allNames : List String) (name : String) :
    scenesStartup sceneArg cfg allNames = Except.ok (sceneNames sceneArg cfg allNames) ∧
    (cfg name = none →
      compileSceneInit cfg name =
        Except.error (JsRunError.typeError "Cannot read properties of undefined")) ∧
    (∀ c, cfg name = some c →
      ∃ job, compileSceneInit cfg name = Except.ok job ∧ job.entryPoint = c.entryPoint) := by
  refine ⟨rfl, ?_, ?_⟩
  · intro h
    simp [compileSceneInit, h]
  · intro c hc
    have hrepr : compileSceneInit cfg name = Except.ok
        { fileName := name ++ "-scene.min.js"
          dest := "scenes/" ++ name
          warnings := if c.typeSafe == some false then CLOSURE_WARNINGS
                      else CLOSURE_SAFE_WARNINGS
          warningLevel := if c.typeSafe == some false then "DEFAULT" else "VERBOSE"
          entryPoint := c.entryPoint
          compilationLevel := "SIMPLE_OPTIMIZATIONS"
          languageIn := "ECMASCRIPT6_STRICT"
          languageOut := "ECMASCRIPT5_STRICT"
          outputWrapper :=
            if c.isFrame then "%output%"
            else
              "var scenes = scenes || \x7b\x7d;\n" ++
              "scenes." ++ name ++ " = scenes." ++ name ++ " || \x7b\x7d;\n" ++
              "(function()\x7bvar global=window;%output%\x7d).call(\x7bapp: scenes." ++
                name ++ "\x7d);" } := by
      simp [compileSceneInit, hc]
    exact ⟨_, hrepr, rfl⟩

/-- Witness for the amended claim C3 at a concrete empty configuration
table. -/
theorem claim_C3_amended_witness :
    ((fun _ => (none : Option SceneConfig)) "nosuchscene" = none) ∧
    compileSceneInit (fun _ => none) "nosuchscene" =
      Except.error (JsRunError.typeError "Cannot read properties of undefined") :=
  ⟨rfl, (claim_C3_amended (some "nosuchscene") (fun _ => none) [] "nosuchscene").2.1 rfl⟩

/-- Claim C4: within the compile-scenes stage, an error while compiling one
scene does not prevent a distinct scene from compiling and emitting its
artifact, and a warning aborts nothing because every per-scene compiler
stream is created with continueWithWarnings. -/
theorem claim_C4 (names : List String) (outcome : String → CompilerOutcome) (a b : String)
    (hab : a ≠ b) (ha : outcome a = CompilerOutcome.err) (hb : b ∈ names)
    (hbo : outcome b ≠ CompilerOutcome.err) :
    (b, true) ∈ compileScenesOutcomes names outcome ∧
    compilerEmits true CompilerOutcome.warning = true := by
  constructor
  · have hemit : compilerEmits true (outcome b) = true := by
      cases h : outcome b with
      | success => rfl
      | warning => rfl
      | err => exact absurd h hbo
    refine List.mem_map.mpr ⟨b, hb, ?_⟩
    rw [hemit]
  · rfl

/-- Witness for claim C4: two concrete scenes, the first failing and the
second warning, with the second still emitted. -/
theorem claim_C4_witness :
    (("penguindash" : String) ≠ "codelab") ∧
    ((fun n => if n = "penguindash" then CompilerOutcome.err else CompilerOutcome.warning)
        "penguindash" = CompilerOutcome.err) ∧
    ("codelab" ∈ ["penguindash", "codelab"]) ∧
    ((fun n => if n = "penguindash" then CompilerOutcome.err else CompilerOutcome.warning)
        "codelab" ≠ CompilerOutcome.err) ∧
    ((("codelab", true) ∈ compileScenesOutcomes ["penguindash", "codelab"]
        (fun n => if n = "penguindash" then CompilerOutcome.err else CompilerOutcome.warning)) ∧
      compilerEmits true CompilerOutcome.warning = true) :=
  ⟨by decide, by decide, by decide, by decide,
   claim_C4 ["penguindash", "codelab"]
     (fun n => if n = "penguindash" then CompilerOutcome.err else CompilerOutcome.warning)
     "penguindash" "codelab" (by decide) (by decide) (by decide) (by decide)⟩

/-- Claim C5: the sass task decides whether to rewrite an output file by
content digest alone; byte-identical compiled output is never re-emitted,
and the decision is independent of the modification times. -/
theorem claim_C5 (digest : List Nat → Nat) (source target : OutFile) :
    (sassHasChanged digest source target = true ↔
      digest source.contents ≠ digest target.contents) ∧
    (∀ c m₁ m₂, sassHasChanged digest { contents := c, mtime := m₁ }
        { contents := c, mtime := m₂ } = false) ∧
    (∀ m₁ m₂, sassHasChanged digest { contents := source.contents, mtime := m₁ } target =
      sassHasChanged digest { contents := source.contents, mtime := m₂ } target) := by
  refine ⟨?_, ?_, ?_⟩
  · simp [sassHasChanged, compareSha1Digest]
  · intro c m₁ m₂
    simp [sassHasChanged, compareSha1Digest]
  · intro m₁ m₂
    rfl

/-- Witness for claim C5: identical contents with different modification
times are not re-emitted. -/
theorem claim_C5_witness :
    sassHasChanged (fun c => c.foldl (· + ·) 0) { contents := [1, 2], mtime := 5 }
      { contents := [1, 2], mtime := 9 } = false :=
  (claim_C5 (fun c => c.foldl (· + ·) 0) { contents := [1, 2], mtime := 5 }
    { contents := [1, 2], mtime := 9 }).2.1 [1, 2] 5 9

/-- Claim C6: for every configured scene, the compile-scenes stage selects
the lenient warning preset with DEFAULT level exactly when the typeSafe flag
is the literal false and the strict preset with VERBOSE level otherwise, and
the artifact destination is the deterministic per-scene path. -/
theorem claim_C6 (cfg : String → Option SceneConfig) (name : String) (c : SceneConfig)
    (h : cfg name = some c) :
    ∃ job, compileSceneInit cfg name = Except.ok job ∧
      (c.typeSafe = some false →
        job.warnings = ["accessControls", "const", "visibility"] ∧
        job.warningLevel = "DEFAULT") ∧
      (c.typeSafe ≠ some false →
        job.warnings = ["accessControls", "const", "visibility", "checkTypes", "checkVars"] ∧
        job.warningLevel = "VERBOSE") ∧
      sceneOutputPath job = "scenes/" ++ name ++ "/" ++ name ++ "-scene.min.js" := by
  simp only [compileSceneInit, h]
  refine ⟨_, rfl, ?_, ?_, ?_⟩
  · intro hts
    have hb : (c.typeSafe == some false) = true := beq_iff_eq.mpr hts
    exact ⟨by simp [hb, CLOSURE_WARNINGS], by simp [hb]⟩
  · intro hts
    have hb : (c.typeSafe == some false) = false := beq_eq_false_iff_ne.mpr hts
    exact ⟨by simp [hb, CLOSURE_SAFE_WARNINGS, CLOSURE_WARNINGS], by simp [hb]⟩
  · simp [sceneOutputPath, String.append_assoc]

/-- Witness for claim C6 at a concrete configuration whose typeSafe flag is
the literal false. -/
theorem claim_C6_witness :
    ((fun _ => some lenientSceneConfig) "airport" = some lenientSceneConfig) ∧
    ∃ job, compileSceneInit (fun _ => some lenientSceneConfig) "airport" = Except.ok job ∧
      (lenientSceneConfig.typeSafe = some false →
        job.warnings = ["accessControls", "const", "visibility"] ∧
        job.warningLevel = "DEFAULT") ∧
      (lenientSceneConfig.typeSafe ≠ some false →
        job.warnings = ["accessControls", "const", "visibility", "checkTypes", "checkVars"] ∧
        job.warningLevel = "VERBOSE") ∧
      sceneOutputPath job = "scenes/" ++ "airport" ++ "/" ++ "airport" ++ "-scene.min.js" :=
  ⟨rfl, claim_C6 (fun _ => some lenientSceneConfig) "airport" lenientSceneConfig rfl⟩

/-- Claim C7: in every execution of the task graph respecting the declared
dependencies, the build-contents stage starts only after scene compilation,
style compilation, HTML inlining, version stamping and asset copying have
all finished. -/
theorem claim_C7 (devmode : Bool) (e : Execution devmode) :
    ∀ t ∈ ["compile-scenes", "sass", "vulcanize-scenes", "vulcanize-elements",
           "build-prod", "copy-assets"],
      e.finish t < e.start "build-contents" := by
  intro t ht
  exact e.finish_lt_start (build_contents_depends devmode t ht)

/-- Witness for claim C7 on a concrete schedule of the dist pipeline. -/
theorem claim_C7_witness :
    ("sass" ∈ ["compile-scenes", "sass", "vulcanize-scenes", "vulcanize-elements",
      "build-prod", "copy-assets"]) ∧
    sampleExecution.finish "sass" < sampleExecution.start "build-contents" :=
  ⟨by decide, claim_C7 false sampleExecution "sass" (by decide)⟩

/-- Claim C8: shuffle never loses or duplicates an element; for every input
array and every sequence of random draws the result is a permutation of the
input of the same length, the source function mutating its argument in
place and handing the same array back. -/
theorem claim_C8 {α : Type} (choice : Nat → Nat) (array : List α) :
    List.Perm (app.Lights.shuffle_ choice array) array ∧
    (app.Lights.shuffle_ choice array).length = array.length := by
  have h := app.shuffle_perm choice array
  exact ⟨h, h.length_eq⟩

/-- Claim C9: after setLevel with any level whose stage differs from stage2
the instance is inactive, and onBeat on an inactive instance changes
nothing: tiles, lights and every light style are left exactly as they
were. -/
theorem claim_C9 (level : app.Level) (s : app.Lights) (beat bpm : Nat)
    (choice : Nat → Nat) (h : level.stage ≠ "stage2") :
    (app.Lights.setLevel level s).active = false ∧
    app.Lights.onBeat beat bpm choice (app.Lights.setLevel level s) =
      app.Lights.setLevel level s := by
  have ha : (app.Lights.setLevel level s).active = false := by
    show (level.stage == "stage2") = false
    exact beq_eq_false_iff_ne.mpr h
  refine ⟨ha, ?_⟩
  simp [app.Lights.onBeat, ha]

/-- Witness for claim C9 with a stage1 level on a fresh instance. -/
theorem claim_C9_witness :
    (({ stage := "stage1" } : app.Level).stage ≠ "stage2") ∧
    app.Lights.onBeat 0 0 (fun _ => 0)
        (app.Lights.setLevel { stage := "stage1" } app.Lights.init) =
      app.Lights.setLevel { stage := "stage1" } app.Lights.init :=
  ⟨by decide,
   (claim_C9 { stage := "stage1" } app.Lights.init 0 0 (fun _ => 0) (by decide)).2⟩

/-- Claim C10: whatever sequence of setLevel and onBeat calls is applied to
a fresh instance, the tiles stay a permutation of the integers 1 to 9, and a
beat received while active repaints the four lights with four pairwise
distinct tile numbers drawn from 1 to 9. -/
theorem claim_C10 (ops : List app.LightsOp) (beat bpm : Nat) (choice : Nat → Nat)
    (h : (app.runOps app.Lights.init ops).active = true) :
    List.Perm (app.runOps app.Lights.init ops).tiles [1, 2, 3, 4, 5, 6, 7, 8, 9] ∧
    ∃ ns : List Nat,
      (app.Lights.onBeat beat bpm choice (app.runOps app.Lights.init ops)).lights =
        ns.map app.discoUrl ∧
      ns.Nodup ∧ ns.length = 4 ∧ ∀ n ∈ ns, 1 ≤ n ∧ n ≤ 9 := by
  obtain ⟨hperm, hlen⟩ := app.lightsInv_runOps ops app.Lights.init app.lightsInv_init
  set s := app.runOps app.Lights.init ops with hs
  have hbase : (List.range 9).map (fun v => v + 1) = [1, 2, 3, 4, 5, 6, 7, 8, 9] := by decide
  rw [hbase] at hperm
  refine ⟨hperm, ?_⟩
  have honb : (app.Lights.onBeat beat bpm choice s).lights =
      (List.range s.lights.length).map
        (fun index => app.discoUrl ((app.Lights.shuffle_ choice s.tiles).getD index 0)) := by
    simp [app.Lights.onBeat, h]
  set t := app.Lights.shuffle_ choice s.tiles with htdef
  have htperm : List.Perm t [1, 2, 3, 4, 5, 6, 7, 8, 9] :=
    (app.shuffle_perm choice s.tiles).trans hperm
  have htlen : t.length = 9 := by rw [htperm.length_eq]; rfl
  have htnodup : t.Nodup := htperm.symm.nodup (by decide)
  refine ⟨t.take 4, ?_, ?_, ?_, ?_⟩
  · rw [honb, hlen]
    rw [← app.range_map_getD 4 t (by rw [htlen]; decide), List.map_map]
    rfl
  · exact htnodup.sublist (List.take_sublist 4 t)
  · rw [List.length_take, htlen]
    decide
  · intro n hn
    have hmem : n ∈ t := List.take_subset 4 t hn
    have hnine : n ∈ [1, 2, 3, 4, 5, 6, 7, 8, 9] := htperm.mem_iff.mp hmem
    have hall : ∀ m ∈ [1, 2, 3, 4, 5, 6, 7, 8, 9], 1 ≤ m ∧ m ≤ 9 := by decide
    exact hall n hnine

/-- Witness for claim C10: one setLevel call with stage2 activates the
instance. -/
theorem claim_C10_witness :
    ((app.runOps app.Lights.init [app.LightsOp.setLevel { stage := "stage2" }]).active
      = true) ∧
    (List.Perm (app.runOps app.Lights.init
        [app.LightsOp.setLevel { stage := "stage2" }]).tiles [1, 2, 3, 4, 5, 6, 7, 8, 9] ∧
      ∃ ns : List Nat,
        (app.Lights.onBeat 0 0 (fun _ => 0)
            (app.runOps app.Lights.init
              [app.LightsOp.setLevel { stage := "stage2" }])).lights =
          ns.map app.discoUrl ∧
        ns.Nodup ∧ ns.length = 4 ∧ ∀ n ∈ ns, 1 ≤ n ∧ n ≤ 9) :=
  ⟨by decide,
   claim_C10 [app.LightsOp.setLevel { stage := "stage2" }] 0 0 (fun _ => 0) (by decide)⟩

